import Mathlib

/-!
Verification development for the resilient command-execution layer and the
CI-status resolution algorithm of the dev-toolkit repository.

The embedding covers:
* `shared_libs/common/error_handling.py` — `ErrorInfo`, `ErrorPatternSet`,
  `ErrorPatternDetector.detect_error_patterns`;
* `shared_libs/cmd_utils/subprocess_client.py` — the retry strategies,
  `CommandConfig`, `CommandResult`, and the retry loop of
  `SubprocessClient.execute_command`;
* `shared_libs/github_utils/gh_client.py` — `GHClient._calculate_delay` and
  `GHClient._retry_with_backoff`;
* `claude-dotfiles/agents/general/code/scripts/pr_quality_check.py` —
  `run_gh_command` and the check-run scanning part of
  `check_post_merge_ci_status`.

External effects are made explicit: process invocations are an oracle
`Nat → AttemptOutcome` giving each attempt's outcome, the jitter randomness is
an explicit draw function `Nat → ℚ` (constrained in theorems exactly as
`random.uniform` bounds it), and step-name lookups of the CI resolver are an
oracle `Int → Bool × Bool × String × String`.  Delays are modelled over `ℚ`;
wall-clock durations (`execution_time`, timestamps inside log text) are outside
the model and fixed to `0` / omitted from message text where noted.
-/

/-! ## Python string helpers -/

/-- Substring containment on character lists: Python's `needle in haystack`. -/
def listContainsSub (needle : List Char) : List Char → Bool
  | [] => needle.isEmpty
  | c :: rest => needle.isPrefixOf (c :: rest) || listContainsSub needle rest

/-- Python's `needle in haystack` on strings (exact, case-sensitive). -/
def pySubstr (needle haystack : String) : Bool :=
  listContainsSub needle.toList haystack.toList

/-- Python's `str.lower()` (ASCII range; every text this development touches
is ASCII). -/
def pyLower (s : String) : String :=
  ⟨s.data.map Char.toLower⟩

/-- Python's `str.strip()` with no argument: drop leading and trailing
whitespace. -/
def pyStrip (s : String) : String :=
  ⟨((s.data.dropWhile Char.isWhitespace).reverse.dropWhile Char.isWhitespace).reverse⟩

/-- Helper for `pySplitWS`: collect maximal non-whitespace runs
(`acc` holds the current run reversed). -/
def splitWSAux : List Char → List Char → List String
  | [], acc => if acc.isEmpty then [] else [⟨acc.reverse⟩]
  | c :: rest, acc =>
    if c.isWhitespace then
      if acc.isEmpty then splitWSAux rest []
      else ⟨acc.reverse⟩ :: splitWSAux rest []
    else splitWSAux rest (c :: acc)

/-- Python's `str.split()` with no separator: split on whitespace runs,
discarding empty pieces. -/
def pySplitWS (s : String) : List String :=
  splitWSAux s.data []

/-! ## Regex matching

The error patterns used by `ErrorPatternDetector` fall in a small regex
fragment: literal text, `\.` (a literal dot), and `.*` gaps.  A pattern is
represented as the list of its literal parts, the parts being separated by
`.*` in the source regex.  `re.search(p, s, re.IGNORECASE)` for this fragment
holds iff at some start position the first literal occurs, and each following
literal occurs after the previous one with no newline in between (Python's `.`
does not match a newline).  Taking the earliest occurrence of each subsequent
literal is complete because none of the literals contains a newline, so an
earlier match end never rules out a continuation that a later one allows. -/

/-- Find `lit` within the current `.*` gap: scan forward without crossing a
newline; on success return the suffix after the matched literal. -/
def matchGapLit (lit : List Char) : List Char → Option (List Char)
  | [] => if lit.isEmpty then some [] else none
  | c :: rest =>
    if lit.isPrefixOf (c :: rest) then some ((c :: rest).drop lit.length)
    else if c = '\n' then none
    else matchGapLit lit rest

/-- Match the remaining literal parts, each preceded by a `.*` gap. -/
def matchParts : List (List Char) → List Char → Bool
  | [], _ => true
  | lit :: rest, s =>
    match matchGapLit lit s with
    | some suffix => matchParts rest suffix
    | none => false

/-- Match the whole pattern anchored at the current position: the first
literal must start here, the rest follow through `.*` gaps. -/
def headMatch : List (List Char) → List Char → Bool
  | [], _ => true
  | lit :: rest, s => lit.isPrefixOf s && matchParts rest (s.drop lit.length)

/-- `re.search`: try the anchored match at every start position. -/
def searchParts (parts : List (List Char)) : List Char → Bool
  | [] => headMatch parts []
  | c :: tail => headMatch parts (c :: tail) || searchParts parts tail

/-- Case-insensitive search of a pattern (given as its literal parts) in
`text`, as `re.search(pattern, text, re.IGNORECASE)` does. -/
def regexSearch (parts : List String) (text : String) : Bool :=
  searchParts (parts.map (fun p => (pyLower p).toList)) (pyLower text).toList

/-! ## error_handling.py -/

/-- Detailed error information (`ErrorInfo` dataclass). -/
structure ErrorInfo where
  error_type : String
  is_error : Bool
  message : String
  suggestion : String
  recoverable : Bool
deriving Repr, DecidableEq

/-- A set of error patterns with metadata (`ErrorPatternSet`).  Each pattern
is stored as its literal parts (see `regexSearch`). -/
structure ErrorPatternSet where
  name : String
  patterns : List (List String)
  error_type : String
  message : String
  suggestion : String
  recoverable : Bool
deriving Repr, DecidableEq

/-- The `sso-auth` default pattern set.  Multi-part entries transcribe `.*`
regexes, e.g. `enter the code .* to authenticate`. -/
def ssoAuthPatternSet : ErrorPatternSet :=
  { name := "sso-auth"
    , patterns :=
        [ ["To sign in, use a web browser"]
        , ["please run az login"]
        , ["authentication required"]
        , ["login required"]
        , ["Please re-run azure login"]
        , ["interactive authentication is needed"]
        , ["https://microsoft.com/devicelogin"]
        , ["enter the code ", " to authenticate"]
        , ["authentication via web browser", "required"] ]
    , error_type := "sso-required"
    , message := "SSO authentication required"
    , suggestion := "Please complete SSO authentication in your web browser and retry"
    , recoverable := true }

/-- The `tls-cert` default pattern set. -/
def tlsCertPatternSet : ErrorPatternSet :=
  { name := "tls-cert"
    , patterns :=
        [ ["tls: failed to verify certificate"]
        , ["certificate verify failed"]
        , ["x509: certificate"]
        , ["certificate signed by unknown authority"]
        , ["certificate has expired"]
        , ["certificate is not valid"]
        , ["ssl certificate problem"] ]
    , error_type := "tls-error"
    , message := "TLS certificate verification failed"
    , suggestion := "Use --skip-tls-verify flag (INSECURE) or contact your administrator to fix certificate issues"
    , recoverable := true }

/-- The `network` default pattern set (`dial tcp.*timeout` is the one
multi-part entry). -/
def networkPatternSet : ErrorPatternSet :=
  { name := "network"
    , patterns :=
        [ ["connection refused"]
        , ["network is unreachable"]
        , ["timeout"]
        , ["connection timed out"]
        , ["dial tcp", "timeout"]
        , ["no route to host"]
        , ["temporary failure in name resolution"] ]
    , error_type := "network-error"
    , message := "Network connectivity issue"
    , suggestion := "Check network connectivity and endpoint configuration"
    , recoverable := true }

/-- The `permission` default pattern set (`user.*cannot.*get` and
`RBAC.*denied` are the multi-part entries). -/
def permissionPatternSet : ErrorPatternSet :=
  { name := "permission"
    , patterns :=
        [ ["forbidden"]
        , ["unauthorized"]
        , ["access denied"]
        , ["permission denied"]
        , ["user", "cannot", "get"]
        , ["RBAC", "denied"] ]
    , error_type := "permission-error"
    , message := "Permission denied or insufficient permissions"
    , suggestion := "Contact your administrator to check permissions"
    , recoverable := false }

/-- The `service-not-found` default pattern set. -/
def serviceNotFoundPatternSet : ErrorPatternSet :=
  { name := "service-not-found"
    , patterns :=
        [ ["service not found"]
        , ["no records found"]
        , ["service", "does not exist"]
        , ["could not find", "service"] ]
    , error_type := "service-not-found"
    , message := "Service not found in system"
    , suggestion := "Verify the service name and check if it exists in the target environment"
    , recoverable := false }

/-- The default pattern sets of `ErrorPatternDetector._get_default_patterns`,
in source order. -/
def default_patterns : List ErrorPatternSet :=
  [ssoAuthPatternSet, tlsCertPatternSet, networkPatternSet,
   permissionPatternSet, serviceNotFoundPatternSet]

/-- `ErrorPatternDetector._matches_pattern_set`: does `output` match any
pattern of the set. -/
def matches_pattern_set (output : String) (ps : ErrorPatternSet) : Bool :=
  ps.patterns.any (fun p => regexSearch p output)

/-- The `ErrorInfo` that `detect_error_patterns` builds from a matching set. -/
def errorInfoOfSet (ps : ErrorPatternSet) : ErrorInfo :=
  { error_type := ps.error_type
  , is_error := true
  , message := ps.message
  , suggestion := ps.suggestion
  , recoverable := ps.recoverable }

/-- First pattern set of a list matching `output`, in order. -/
def findMatchingSet (output : String) : List ErrorPatternSet → Option ErrorPatternSet
  | [] => none
  | ps :: rest =>
    if matches_pattern_set output ps then some ps else findMatchingSet output rest

/-- The command name used in the command-not-found message:
`command.split()[0] if command else "unknown"`.  (A whitespace-only command
would raise `IndexError` in the source; that edge is not modelled.) -/
def cmdNameOf (command : String) : String :=
  match pySplitWS command with
  | [] => "unknown"
  | n :: _ => n

/-- `ErrorPatternDetector.detect_error_patterns`, for a detector with custom
sets `custom_patterns` and configured `timeout`.  Precedence as in the source:
custom sets, then default sets, then return-code heuristics. -/
def detect_error_patterns (custom_patterns : List ErrorPatternSet) (timeout : Nat)
    (output : String) (return_code : Int) (command : String) : ErrorInfo :=
  match findMatchingSet output custom_patterns with
  | some ps => errorInfoOfSet ps
  | none =>
    match findMatchingSet output default_patterns with
    | some ps => errorInfoOfSet ps
    | none =>
      if return_code = 127 || pySubstr "command not found" (pyLower output) then
        { error_type := "command-not-found"
        , is_error := true
        , message := "Command not found: " ++ cmdNameOf command
        , suggestion := "Ensure the required command is installed and in PATH"
        , recoverable := false }
      else if return_code = 124 || regexSearch ["timeout"] output
          || regexSearch ["timed out"] output then
        { error_type := "timeout"
        , is_error := true
        , message := "Command timed out after " ++ toString timeout ++ " seconds"
        , suggestion := "Try increasing timeout or check for hanging processes"
        , recoverable := true }
      else if return_code ≠ 0 then
        { error_type := "generic-error"
        , is_error := true
        , message := "Command failed with return code " ++ toString return_code
        , suggestion := "Check command output for details"
        , recoverable := true }
      else
        { error_type := "success"
        , is_error := false
        , message := "Command completed successfully"
        , suggestion := ""
        , recoverable := true }

/-! ## subprocess_client.py — retry strategies -/

/-- Abstract retry strategy interface (`RetryStrategy` ABC): a delay per
zero-based attempt number and a retry decision from the failed command's
output and return code. -/
structure RetryStrategy where
  get_delay : Nat → ℚ
  should_retry : String → Int → Bool

/-- `ConstantDelayStrategy`: constant delay, always retry. -/
def ConstantDelayStrategy (delay : ℚ) : RetryStrategy :=
  { get_delay := fun _ => delay
  , should_retry := fun _ _ => true }

/-- `ExponentialBackoffStrategy` dataclass fields. -/
structure ExponentialBackoffStrategy where
  initial_delay : ℚ := 2
  max_delay : ℚ := 300
  jitter : ℚ := 1/10
  retry_patterns : List String := []
deriving Repr, DecidableEq

/-- The pre-jitter delay: `min(initial_delay * 2**attempt, max_delay)`. -/
def ExponentialBackoffStrategy.base_delay (s : ExponentialBackoffStrategy)
    (attempt : Nat) : ℚ :=
  min (s.initial_delay * 2 ^ attempt) s.max_delay

/-- `ExponentialBackoffStrategy.get_delay` with the randomness explicit:
`u attempt` stands for the `random.uniform(-jitter_range, jitter_range)` value
drawn at this call; theorems constrain `|u attempt| ≤ base * jitter` exactly
as the source draws it.  When `jitter ≤ 0` no randomness is consumed. -/
def ExponentialBackoffStrategy.get_delay (s : ExponentialBackoffStrategy)
    (u : Nat → ℚ) (attempt : Nat) : ℚ :=
  let base := s.base_delay attempt
  if 0 < s.jitter then max 0 (base + u attempt) else base

/-- `ExponentialBackoffStrategy.should_retry`: true when no patterns are
configured, else true iff some pattern occurs (case-insensitively) in the
error output. -/
def ExponentialBackoffStrategy.should_retry (s : ExponentialBackoffStrategy)
    (error_output : String) (_return_code : Int) : Bool :=
  if s.retry_patterns.isEmpty then true
  else s.retry_patterns.any (fun p => pySubstr (pyLower p) (pyLower error_output))

/-- Package an `ExponentialBackoffStrategy` (with its jitter draws) as an
abstract `RetryStrategy`. -/
def ExponentialBackoffStrategy.toStrategy (s : ExponentialBackoffStrategy)
    (u : Nat → ℚ) : RetryStrategy :=
  { get_delay := s.get_delay u
  , should_retry := s.should_retry }

/-! ## subprocess_client.py — command execution -/

/-- `CommandResult` dataclass.  `execution_time` is wall-clock in the source
and is fixed to `0` in the model. -/
structure CommandResult where
  success : Bool
  output : String
  error_output : String
  return_code : Int
  command : String
  execution_time : ℚ
  error_info : Option ErrorInfo := none

/-- `CommandConfig` dataclass (minus `verbose`, which only prints).
`custom_error_patterns` carries the custom sets the client's detector is
built from; `retries` is an `Int` as a Python int can be negative. -/
structure CommandConfig where
  timeout : Nat := 30
  retries : Int := 0
  retry_delay : ℚ := 1
  combine_output : Bool := true
  check_return_code : Bool := true
  custom_error_patterns : List ErrorPatternSet := []
  retry_strategy : Option RetryStrategy := none

/-- Outcome of one `subprocess.run` call inside the retry loop: a completed
process, or one of the three caught exception classes. -/
inductive AttemptOutcome where
  | completed (returncode : Int) (stdout stderr : String)
  | timeoutExpired
  | fileNotFound
  | otherException (msg : String)
deriving Repr, DecidableEq

/-- A run of `execute_command`: the returned result, the number of process
invocations performed, and the sleeps executed between attempts. -/
structure ExecTrace where
  result : CommandResult
  invocations : Nat
  sleeps : List ℚ

/-- The `CommandResult` built by the `last_result or CommandResult(...)`
fallback when no attempt ran. -/
def noExecutionResult (cmd_string : String) : CommandResult :=
  { success := false
  , output := "No execution attempted"
  , error_output := ""
  , return_code := 1
  , command := cmd_string
  , execution_time := 0
  , error_info := some
      { error_type := "no-execution"
      , is_error := true
      , message := "No execution attempted"
      , suggestion := ""
      , recoverable := false } }

/-- Delay slept before retry number `attempt` (`attempt > 0`):
`retry_strategy.get_delay(attempt - 1)` or the fixed `retry_delay`. -/
def attemptDelay (config : CommandConfig) (attempt : Nat) : ℚ :=
  match config.retry_strategy with
  | some s => s.get_delay (attempt - 1)
  | none => config.retry_delay

/-- The retry loop of `SubprocessClient.execute_command` from loop index
`attempt` with `fuel` loop iterations remaining (`fuel = retries + 1 -
attempt` at the top-level call).  `custom` and `det_timeout` are the custom
sets and timeout baked into `self.error_detector` at client construction;
`outcomes` gives each attempt's process outcome. -/
def execAttempts (custom : List ErrorPatternSet) (det_timeout : Nat)
    (config : CommandConfig) (outcomes : Nat → AttemptOutcome)
    (cmd_list : List String) (cmd_string : String) :
    Nat → Nat → ExecTrace
  | 0, _ => { result := noExecutionResult cmd_string, invocations := 0, sleeps := [] }
  | fuel + 1, attempt =>
    let sleeps : List ℚ := if 0 < attempt then [attemptDelay config attempt] else []
    match outcomes attempt with
    | .completed returncode stdout stderr =>
      let output := if config.combine_output then stdout ++ stderr else stdout
      let error_output := stderr
      let error_info :=
        detect_error_patterns custom det_timeout output returncode cmd_string
      let success :=
        (returncode == 0) && (!config.check_return_code || !error_info.is_error)
      let result : CommandResult :=
        { success := success
        , output := output
        , error_output := error_output
        , return_code := returncode
        , command := cmd_string
        , execution_time := 0
        , error_info := some error_info }
      if success || !error_info.recoverable then
        { result := result, invocations := 1, sleeps := sleeps }
      else if (match config.retry_strategy with
               | some s => !s.should_retry output returncode
               | none => false) then
        { result := result, invocations := 1, sleeps := sleeps }
      else if fuel = 0 then
        { result := result, invocations := 1, sleeps := sleeps }
      else
        let rest :=
          execAttempts custom det_timeout config outcomes cmd_list cmd_string
            fuel (attempt + 1)
        { result := rest.result
        , invocations := rest.invocations + 1
        , sleeps := sleeps ++ rest.sleeps }
    | .timeoutExpired =>
      let result : CommandResult :=
        { success := false
        , output := "Command timed out after " ++ toString config.timeout ++ " seconds"
        , error_output := ""
        , return_code := 124
        , command := cmd_string
        , execution_time := 0
        , error_info := some
            { error_type := "timeout"
            , is_error := true
            , message := "Command timed out after " ++ toString config.timeout ++ " seconds"
            , suggestion := "Try increasing timeout or check for hanging processes"
            , recoverable := true } }
      if fuel = 0 then
        { result := result, invocations := 1, sleeps := sleeps }
      else
        let rest :=
          execAttempts custom det_timeout config outcomes cmd_list cmd_string
            fuel (attempt + 1)
        { result := rest.result
        , invocations := rest.invocations + 1
        , sleeps := sleeps ++ rest.sleeps }
    | .fileNotFound =>
      let cmd_name := cmd_list.headD "unknown"
      let result : CommandResult :=
        { success := false
        , output := "Command not found: " ++ cmd_name
        , error_output := ""
        , return_code := 127
        , command := cmd_string
        , execution_time := 0
        , error_info := some
            { error_type := "command-not-found"
            , is_error := true
            , message := "Command not found: " ++ cmd_name
            , suggestion := "Ensure the command is installed and in PATH"
            , recoverable := false } }
      { result := result, invocations := 1, sleeps := sleeps }
    | .otherException msg =>
      let result : CommandResult :=
        { success := false
        , output := "Execution error: " ++ msg
        , error_output := ""
        , return_code := 1
        , command := cmd_string
        , execution_time := 0
        , error_info := some
            { error_type := "execution-error"
            , is_error := true
            , message := "Command execution failed: " ++ msg
            , suggestion := "Check command syntax and system resources"
            , recoverable := true } }
      if fuel = 0 then
        { result := result, invocations := 1, sleeps := sleeps }
      else
        let rest :=
          execAttempts custom det_timeout config outcomes cmd_list cmd_string
            fuel (attempt + 1)
        { result := rest.result
        , invocations := rest.invocations + 1
        , sleeps := sleeps ++ rest.sleeps }

/-- `SubprocessClient.execute_command` for a command already in list form:
runs `range(config.retries + 1)` loop iterations (none when `retries < 0`,
in which case the fallback result is returned). -/
def execute_command (custom : List ErrorPatternSet) (det_timeout : Nat)
    (config : CommandConfig) (outcomes : Nat → AttemptOutcome)
    (command : List String) : ExecTrace :=
  let cmd_string := String.intercalate " " command
  execAttempts custom det_timeout config outcomes command cmd_string
    (config.retries + 1).toNat 0

/-! ## gh_client.py -/

/-- `GHClientConfig` dataclass (minus `verbose`, which only prints). -/
structure GHClientConfig where
  max_retries : Nat := 25
  initial_delay : ℚ := 2
  max_delay : ℚ := 300
  jitter : ℚ := 1/10
deriving Repr, DecidableEq

/-- `GHClient._calculate_delay` with the jitter randomness explicit, exactly
as `ExponentialBackoffStrategy.get_delay`. -/
def GHClient.calculate_delay (config : GHClientConfig) (u : Nat → ℚ)
    (attempt : Nat) : ℚ :=
  let base := min (config.initial_delay * 2 ^ attempt) config.max_delay
  if 0 < config.jitter then max 0 (base + u attempt) else base

/-- One `subprocess.run` result inside `_retry_with_backoff` (return code and
raw stdout/stderr).  `none` models the call raising `FileNotFoundError`. -/
structure ProcResult where
  returncode : Int
  stdout : String
  stderr : String
deriving Repr, DecidableEq

/-- A run of the gh retry wrapper: the `(success, output)` pair, the number of
underlying invocations, and the sleeps executed. -/
structure GHTrace where
  success : Bool
  output : String
  invocations : Nat
  sleeps : List ℚ

/-- The rate-limit-exhausted error text.  The source interpolates the current
wall-clock timestamp and a formatted total wait into this message; wall-clock
formatting is outside the model, so the text is abstracted as a function of
the retry ceiling and the total wait slept. -/
def rateLimitExhaustedText (stderr : String) (label : String) (retries : Nat)
    (total_wait : ℚ) : String :=
  stderr ++ "\n\n" ++ label ++ "Rate limit exceeded after " ++ toString retries
    ++ " retries (waited total: " ++ toString total_wait ++ ")."

/-- The loop of `GHClient._retry_with_backoff` from loop index `attempt` with
`fuel` iterations remaining and `total_wait` slept so far.  `results` gives
each attempt's process result (`none` = spawn raised `FileNotFoundError`,
counted as an invocation). -/
def ghRetryLoop (config : GHClientConfig) (u : Nat → ℚ) (label : String)
    (check_stdout_for_rate_limit return_stdout_on_error : Bool)
    (rate_limit_exhausted_output : String) (results : Nat → Option ProcResult)
    (retries : Nat) : Nat → Nat → ℚ → GHTrace
  | 0, _, _ => { success := false, output := "Max retries exceeded", invocations := 0, sleeps := [] }
  | fuel + 1, attempt, total_wait =>
    match results attempt with
    | none =>
      { success := false
      , output := if return_stdout_on_error then ""
                  else "gh CLI not found. Install with: brew install gh"
      , invocations := 1
      , sleeps := [] }
    | some r =>
      let stdout := pyStrip r.stdout
      let stderr := pyStrip r.stderr
      if r.returncode == 0 then
        { success := true, output := stdout, invocations := 1, sleeps := [] }
      else
        let is_rate_limited := pySubstr "rate limit" (pyLower stderr)
          || (check_stdout_for_rate_limit && pySubstr "rate_limit" (pyLower stdout))
        if is_rate_limited then
          -- `attempt < retries - 1` (Python int arithmetic; for `retries = 0`
          -- the loop body never runs, so Nat subtraction agrees).
          if attempt < retries - 1 then
            let wait_time := GHClient.calculate_delay config u attempt
            let rest :=
              ghRetryLoop config u label check_stdout_for_rate_limit
                return_stdout_on_error rate_limit_exhausted_output results
                retries fuel (attempt + 1) (total_wait + wait_time)
            { success := rest.success
            , output := rest.output
            , invocations := rest.invocations + 1
            , sleeps := wait_time :: rest.sleeps }
          else
            { success := false
            , output := if rate_limit_exhausted_output ≠ "" then rate_limit_exhausted_output
                        else rateLimitExhaustedText stderr label retries total_wait
            , invocations := 1
            , sleeps := [] }
        else
          { success := false
          , output := if return_stdout_on_error then stdout else stderr
          , invocations := 1
          , sleeps := [] }

/-- `GHClient._retry_with_backoff`: `max_retries = none` means the config's
default ceiling. -/
def GHClient.retry_with_backoff (config : GHClientConfig) (u : Nat → ℚ)
    (max_retries : Option Nat) (label : String)
    (check_stdout_for_rate_limit return_stdout_on_error : Bool)
    (rate_limit_exhausted_output : String)
    (results : Nat → Option ProcResult) : GHTrace :=
  let retries := max_retries.getD config.max_retries
  ghRetryLoop config u label check_stdout_for_rate_limit return_stdout_on_error
    rate_limit_exhausted_output results retries retries 0 0

/-- `GHClient.run_command`: `_retry_with_backoff` with all flags at their
defaults. -/
def GHClient.run_command (config : GHClientConfig) (u : Nat → ℚ)
    (max_retries : Option Nat) (results : Nat → Option ProcResult) : GHTrace :=
  GHClient.retry_with_backoff config u max_retries "" false false "" results

/-! ## pr_quality_check.py — run_gh_command -/

/-- One attempt outcome of `run_gh_command`'s `subprocess.run` call
(`timeout=60`): a completed process, `TimeoutExpired`, or
`FileNotFoundError`. -/
inductive GHRunOutcome where
  | ran (returncode : Int) (stdout stderr : String)
  | timedOut
  | notFound
deriving Repr, DecidableEq

/-- A run of `run_gh_command`: `(success, output)`, invocation count, and the
integer sleeps executed. -/
structure RGTrace where
  success : Bool
  output : String
  invocations : Nat
  sleeps : List Nat

/-- The rate-limit-exhausted message of `run_gh_command` (total wait reported
in minutes). -/
def rgExhaustedText (stderr : String) (max_retries : Nat) (total_wait : Nat) : String :=
  stderr ++ "\n\nRate limit exceeded after " ++ toString max_retries
    ++ " retries (waited total: " ++ toString (total_wait / 60) ++ "m)."

/-- The loop of `run_gh_command` from loop index `attempt` with `fuel`
iterations remaining; `wait_time = min(2 ** (attempt + 1), 300)`. -/
def rgLoop (outcomes : Nat → GHRunOutcome) (max_retries : Nat) :
    Nat → Nat → Nat → RGTrace
  | 0, _, _ => { success := false, output := "Max retries exceeded", invocations := 0, sleeps := [] }
  | fuel + 1, attempt, total_wait =>
    match outcomes attempt with
    | .timedOut =>
      { success := false, output := "Command timed out", invocations := 1, sleeps := [] }
    | .notFound =>
      { success := false
      , output := "gh CLI not found. Install with: brew install gh"
      , invocations := 1
      , sleeps := [] }
    | .ran returncode stdout stderr =>
      if returncode == 0 then
        { success := true, output := pyStrip stdout, invocations := 1, sleeps := [] }
      else
        let stderrT := pyStrip stderr
        if pySubstr "rate limit" (pyLower stderrT) then
          if attempt < max_retries - 1 then
            let wait_time := min (2 ^ (attempt + 1)) 300
            let rest := rgLoop outcomes max_retries fuel (attempt + 1) (total_wait + wait_time)
            { success := rest.success
            , output := rest.output
            , invocations := rest.invocations + 1
            , sleeps := wait_time :: rest.sleeps }
          else
            { success := false
            , output := rgExhaustedText stderrT max_retries total_wait
            , invocations := 1
            , sleeps := [] }
        else
          { success := false, output := stderrT, invocations := 1, sleeps := [] }

/-- `run_gh_command` (default `max_retries = 20`). -/
def run_gh_command (outcomes : Nat → GHRunOutcome) (max_retries : Nat) : RGTrace :=
  rgLoop outcomes max_retries max_retries 0 0

/-! ## pr_quality_check.py — check_post_merge_ci_status -/

/-- One parsed check-run JSON object (`{id, name, conclusion, status,
html_url}`); `none` fields model missing-or-null values (`dict.get`). -/
structure CheckRun where
  id : Option Int := none
  name : Option String := none
  status : Option String := none
  conclusion : Option String := none
  html_url : Option String := none
deriving Repr, DecidableEq

/-- `CICheckResult` dataclass. -/
structure CICheckResult where
  status : String
  failed_checks : List String := []
  failed_check_urls : List String := []
  check_names : List String := []
  has_build_check : Bool := false
  has_test_check : Bool := false
  build_evidence : String := ""
  test_evidence : String := ""
deriving Repr, DecidableEq

/-- `BUILD_CHECK_PATTERNS` (case-insensitive substrings of job names). -/
def BUILD_CHECK_PATTERNS : List String :=
  ["build", "compile", "make", "gradle", "maven", "cargo", "npm run build",
   "yarn build", "webpack", "tsc", "javac", "gcc", "cmake", "bazel"]

/-- `TEST_CHECK_PATTERNS` (case-insensitive substrings of job names). -/
def TEST_CHECK_PATTERNS : List String :=
  ["test", "spec", "jest", "pytest", "junit", "mocha", "karma", "cypress",
   "selenium", "unittest", "rspec", "minitest", "coverage", "e2e"]

/-- Accumulator of the check-run scanning loop of
`check_post_merge_ci_status`. -/
structure CIScanState where
  failed_checks : List String := []
  failed_check_urls : List String := []
  check_names : List String := []
  job_ids : List Int := []
  has_pending : Bool := false
  has_checks : Bool := false
  has_build_check : Bool := false
  has_test_check : Bool := false
  build_evidence : String := ""
  test_evidence : String := ""
deriving Repr, DecidableEq

/-- One iteration of the check-run scanning loop.  Mirrors the source order:
record the name, collect a truthy id, detect build/test keywords in the job
name, mark pending when `status != "completed"` (skipping the conclusion
check), else collect failing conclusions. -/
def scanCheck (st : CIScanState) (check : CheckRun) : CIScanState :=
  let st := { st with has_checks := true }
  let check_name := check.name.getD "unknown check"
  let st := { st with check_names := st.check_names ++ [check_name] }
  let check_name_lower := pyLower check_name
  let st :=
    match check.id with
    | some i => if i ≠ 0 then { st with job_ids := st.job_ids ++ [i] } else st
    | none => st
  let st :=
    if !st.has_build_check
        && BUILD_CHECK_PATTERNS.any (fun p => pySubstr p check_name_lower) then
      { st with has_build_check := true, build_evidence := "job: " ++ check_name }
    else st
  let st :=
    if !st.has_test_check
        && TEST_CHECK_PATTERNS.any (fun p => pySubstr p check_name_lower) then
      { st with has_test_check := true, test_evidence := "job: " ++ check_name }
    else st
  if check.status ≠ some "completed" then
    { st with has_pending := true }
  else
    let conclusion := check.conclusion.getD ""
    if conclusion = "failure" || conclusion = "cancelled" || conclusion = "timed_out"
        || conclusion = "action_required" then
      { st with
          failed_checks := st.failed_checks ++ [check_name]
        , failed_check_urls := st.failed_check_urls ++ [check.html_url.getD ""] }
    else st

/-- One iteration of the step-name fallback loop: `check_steps_for_build_test`
is the oracle `stepLookup`, returning
`(has_build, has_test, build_evidence, test_evidence)` per job id. -/
def stepScan (stepLookup : Int → Bool × Bool × String × String)
    (st : CIScanState) (job_id : Int) : CIScanState :=
  if st.has_build_check && st.has_test_check then st
  else
    let r := stepLookup job_id
    let st :=
      if !st.has_build_check && r.1 then
        { st with has_build_check := true, build_evidence := r.2.2.1 }
      else st
    let st :=
      if !st.has_test_check && r.2.1 then
        { st with has_test_check := true, test_evidence := r.2.2.2 }
      else st
    st

/-- The step-name fallback phase: run only when some evidence flag is unset
and job ids were collected, over the first 5 job ids. -/
def applyStepLookups (stepLookup : Int → Bool × Bool × String × String)
    (st : CIScanState) : CIScanState :=
  if (!st.has_build_check || !st.has_test_check) && st.job_ids ≠ [] then
    (st.job_ids.take 5).foldl (stepScan stepLookup) st
  else st

/-- The check-run analysis of `check_post_merge_ci_status`, from the parsed
check-run list (lines that fail to parse are absent).  The two preliminary
remote calls that resolve the merge commit and fetch the check-run payload
(returning `unknown` on failure) happen before this and are not modelled. -/
def check_post_merge_ci_status (stepLookup : Int → Bool × Bool × String × String)
    (checks : List CheckRun) : CICheckResult :=
  let st := checks.foldl scanCheck {}
  if !st.has_checks then
    { status := "no_ci" }
  else
    let st := applyStepLookups stepLookup st
    if st.has_pending then
      { status := "pending"
      , check_names := st.check_names
      , has_build_check := st.has_build_check
      , has_test_check := st.has_test_check
      , build_evidence := st.build_evidence
      , test_evidence := st.test_evidence }
    else if st.failed_checks ≠ [] then
      { status := "failure"
      , failed_checks := st.failed_checks
      , failed_check_urls := st.failed_check_urls
      , check_names := st.check_names
      , has_build_check := st.has_build_check
      , has_test_check := st.has_test_check
      , build_evidence := st.build_evidence
      , test_evidence := st.test_evidence }
    else
      { status := "success"
      , check_names := st.check_names
      , has_build_check := st.has_build_check
      , has_test_check := st.has_test_check
      , build_evidence := st.build_evidence
      , test_evidence := st.test_evidence }

/-- A check-run counted as still pending by the loop. -/
def isPendingCheck (c : CheckRun) : Bool :=
  c.status != some "completed"

/-- A completed check-run whose conclusion the loop counts as failed. -/
def isFailedCheck (c : CheckRun) : Bool :=
  c.status == some "completed"
    && (let conclusion := c.conclusion.getD ""
        conclusion == "failure" || conclusion == "cancelled"
          || conclusion == "timed_out" || conclusion == "action_required")

/-- The name recorded for a check-run. -/
def checkNameOf (c : CheckRun) : String :=
  c.name.getD "unknown check"

/-! ## Predicates on attempt outcomes (used to state the retry claims) -/

/-- An attempt outcome on which the retry loop of `execute_command` does not
stop: a completed process classified as a recoverable failure that the
configured strategy (if any) is willing to retry, or a synthesized timeout /
generic-exception outcome (both retried while budget remains).
Command-not-found never retries. -/
def outcomeRetries (custom : List ErrorPatternSet) (det_timeout : Nat)
    (config : CommandConfig) (cmd_string : String) : AttemptOutcome → Prop
  | .completed rc stdout stderr =>
      let output := if config.combine_output then stdout ++ stderr else stdout
      let ei := detect_error_patterns custom det_timeout output rc cmd_string
      ((rc == 0) && (!config.check_return_code || !ei.is_error)) = false ∧
        ei.recoverable = true ∧
        ∀ s, config.retry_strategy = some s → s.should_retry output rc = true
  | .timeoutExpired => True
  | .fileNotFound => False
  | .otherException _ => True

/-- A completed-process attempt on which the loop's stop conditions hold:
success, a non-recoverable classification, or a configured strategy
declining the retry. -/
def completedStops (custom : List ErrorPatternSet) (det_timeout : Nat)
    (config : CommandConfig) (cmd_string : String)
    (rc : Int) (stdout stderr : String) : Prop :=
  let output := if config.combine_output then stdout ++ stderr else stdout
  let ei := detect_error_patterns custom det_timeout output rc cmd_string
  ((rc == 0) && (!config.check_return_code || !ei.is_error)) = true ∨
    ei.recoverable = false ∨
    ∃ s, config.retry_strategy = some s ∧ s.should_retry output rc = false

/-! ## Theorems -/

/-- The success flag computed by the loop forces return code `0`, and a
non-error classification when `check_return_code` is set. -/
theorem successBool_spec (rc : Int) (crc : Bool) (ei : ErrorInfo)
    (hs : ((rc == 0) && (!crc || !ei.is_error)) = true) :
    rc = 0 ∧ (crc = true → ei.is_error = false) := by
  cases hc : (rc == 0) with
  | false => rw [hc] at hs; simp at hs
  | true =>
    refine ⟨by simpa using hc, ?_⟩
    intro hcrc
    subst hcrc
    rw [hc] at hs
    cases hb : ei.is_error with
    | false => rfl
    | true => rw [hb] at hs; simp at hs

/-- Every result produced by the retry loop carries error information. -/
theorem execAttempts_error_info_isSome (custom : List ErrorPatternSet)
    (det_timeout : Nat) (config : CommandConfig) (outcomes : Nat → AttemptOutcome)
    (cmd_list : List String) (cmd_string : String) :
    ∀ fuel attempt,
      (execAttempts custom det_timeout config outcomes cmd_list cmd_string
        fuel attempt).result.error_info.isSome = true := by
  intro fuel
  induction fuel with
  | zero => intro attempt; simp [execAttempts, noExecutionResult]
  | succ n ih =>
    intro attempt
    cases h : outcomes attempt with
    | completed rc stdout stderr =>
      simp only [execAttempts, h]
      repeat' split <;> simp_all
    | timeoutExpired =>
      simp only [execAttempts, h]
      repeat' split <;> simp_all
    | fileNotFound =>
      simp only [execAttempts, h]
      simp
    | otherException msg =>
      simp only [execAttempts, h]
      repeat' split <;> simp_all

/-- Success invariant of the retry loop: a successful result has return code
`0`, and additionally a non-error classification when `check_return_code`. -/
theorem execAttempts_success_inv (custom : List ErrorPatternSet)
    (det_timeout : Nat) (config : CommandConfig) (outcomes : Nat → AttemptOutcome)
    (cmd_list : List String) (cmd_string : String) :
    ∀ fuel attempt,
      (execAttempts custom det_timeout config outcomes cmd_list cmd_string
        fuel attempt).result.success = true →
      (execAttempts custom det_timeout config outcomes cmd_list cmd_string
        fuel attempt).result.return_code = 0 ∧
      (config.check_return_code = true →
        ∀ ei, (execAttempts custom det_timeout config outcomes cmd_list cmd_string
          fuel attempt).result.error_info = some ei → ei.is_error = false) := by
  intro fuel
  induction fuel with
  | zero => intro attempt h; simp [execAttempts, noExecutionResult] at h
  | succ n ih =>
    intro attempt
    cases h : outcomes attempt with
    | completed rc stdout stderr =>
      simp only [execAttempts, h]
      repeat' split
      all_goals dsimp only
      all_goals
        first
        | exact ih (attempt + 1)
        | (intro hs
           refine ⟨(successBool_spec rc config.check_return_code _ hs).1, ?_⟩
           intro hcrc ei hei
           rw [Option.some.injEq] at hei
           subst hei
           exact (successBool_spec rc config.check_return_code _ hs).2 hcrc)
    | timeoutExpired =>
      simp only [execAttempts, h]
      split
      all_goals dsimp only
      · intro hs; simp at hs
      · exact ih (attempt + 1)
    | fileNotFound =>
      simp only [execAttempts, h]
      intro hs; simp at hs
    | otherException msg =>
      simp only [execAttempts, h]
      split
      all_goals dsimp only
      · intro hs; simp at hs
      · exact ih (attempt + 1)

/-- C1 (counterexample): with `check_return_code = False`, a zero-exit command
whose output matches the built-in `timeout` pattern yields a result with
`success = true` and `error_info.is_error = true`, refuting the claim's
invariant for every `CommandConfig`. -/
theorem c1_counterexample :
    ((execute_command [] 30 { check_return_code := false }
        (fun _ => .completed 0 "timeout" "") ["kubectl", "get"]).result.success = true)
    ∧ ((execute_command [] 30 { check_return_code := false }
        (fun _ => .completed 0 "timeout" "") ["kubectl", "get"]).result.error_info.map
          ErrorInfo.is_error = some true) := by
  exact ⟨by decide, by decide⟩

/-- C1 (amended): for every config, detector state and outcome oracle,
`execute_command` returning `success = true` forces `return_code = 0`; when
`check_return_code` is set it additionally forces the attached
`error_info.is_error = false`.  (With `check_return_code = False` the
`is_error` half fails, see the counterexample.) -/
theorem c1_success_invariant_amended (custom : List ErrorPatternSet)
    (det_timeout : Nat) (config : CommandConfig) (outcomes : Nat → AttemptOutcome)
    (command : List String)
    (h : (execute_command custom det_timeout config outcomes command).result.success = true) :
    (execute_command custom det_timeout config outcomes command).result.return_code = 0 ∧
    (config.check_return_code = true →
      ∀ ei, (execute_command custom det_timeout config outcomes command).result.error_info
        = some ei → ei.is_error = false) :=
  execAttempts_success_inv custom det_timeout config outcomes command
    (String.intercalate " " command) (config.retries + 1).toNat 0 h

/-- C1 witness: the amended invariant applied to a concrete successful run. -/
theorem c1_success_invariant_amended_witness :
    ((execute_command [] 30 {} (fun _ => .completed 0 "ok" "") ["echo"]).result.success = true)
    ∧ ((execute_command [] 30 {} (fun _ => .completed 0 "ok" "") ["echo"]).result.return_code = 0 ∧
      (CommandConfig.check_return_code {} = true →
        ∀ ei, (execute_command [] 30 {} (fun _ => .completed 0 "ok" "") ["echo"]).result.error_info
          = some ei → ei.is_error = false)) :=
  ⟨by decide,
   c1_success_invariant_amended [] 30 {} (fun _ => .completed 0 "ok" "") ["echo"] (by decide)⟩

/-- C4: with zero check-runs the resolver returns status `no_ci` with empty
`failed_checks` and empty `check_names` (for every step-lookup oracle). -/
theorem c4_no_ci_empty (stepLookup : Int → Bool × Bool × String × String) :
    (check_post_merge_ci_status stepLookup []).status = "no_ci" ∧
    (check_post_merge_ci_status stepLookup []).failed_checks = [] ∧
    (check_post_merge_ci_status stepLookup []).check_names = [] :=
  ⟨rfl, rfl, rfl⟩

/-- C5: when the first spawn raises command-not-found, the returned result has
return code 127 with a non-recoverable `command-not-found` classification and
exactly one invocation occurs, for every (non-negative) retries value. -/
theorem c5_command_not_found_never_retried (custom : List ErrorPatternSet)
    (det_timeout : Nat) (config : CommandConfig) (outcomes : Nat → AttemptOutcome)
    (command : List String)
    (hfirst : outcomes 0 = .fileNotFound) (hretries : 0 ≤ config.retries) :
    (execute_command custom det_timeout config outcomes command).invocations = 1 ∧
    (execute_command custom det_timeout config outcomes command).result.return_code = 127 ∧
    ∃ ei, (execute_command custom det_timeout config outcomes command).result.error_info
        = some ei ∧
      ei.error_type = "command-not-found" ∧ ei.recoverable = false := by
  obtain ⟨k, hk⟩ : ∃ k, (config.retries + 1).toNat = k + 1 :=
    ⟨(config.retries + 1).toNat - 1, by omega⟩
  simp only [execute_command, hk, execAttempts, hfirst]
  exact ⟨trivial, trivial, _, rfl, rfl, rfl⟩

/-- C5 witness: a command-not-found spawn under `retries = 5`. -/
theorem c5_command_not_found_never_retried_witness :
    ((fun _ => AttemptOutcome.fileNotFound) 0 = AttemptOutcome.fileNotFound ∧
      0 ≤ CommandConfig.retries { retries := 5 }) ∧
    ((execute_command [] 30 { retries := 5 } (fun _ => .fileNotFound) ["gw"]).invocations = 1 ∧
      (execute_command [] 30 { retries := 5 } (fun _ => .fileNotFound) ["gw"]).result.return_code = 127 ∧
      ∃ ei, (execute_command [] 30 { retries := 5 } (fun _ => .fileNotFound) ["gw"]).result.error_info
          = some ei ∧
        ei.error_type = "command-not-found" ∧ ei.recoverable = false) :=
  ⟨⟨rfl, by decide⟩,
   c5_command_not_found_never_retried [] 30 { retries := 5 } (fun _ => .fileNotFound) ["gw"]
     rfl (by decide)⟩

/-- C8: with `jitter = 0` both `ExponentialBackoffStrategy.get_delay` and
`GHClient._calculate_delay` equal `min(initial_delay * 2^attempt, max_delay)`
exactly, for every attempt and every (unused) jitter draw. -/
theorem c8_get_delay_no_jitter (initial_delay max_delay : ℚ)
    (retry_patterns : List String) (max_retries : Nat) (u : Nat → ℚ) (attempt : Nat) :
    ExponentialBackoffStrategy.get_delay
        { initial_delay := initial_delay, max_delay := max_delay, jitter := 0
        , retry_patterns := retry_patterns } u attempt
      = min (initial_delay * 2 ^ attempt) max_delay ∧
    GHClient.calculate_delay
        { max_retries := max_retries, initial_delay := initial_delay
        , max_delay := max_delay, jitter := 0 } u attempt
      = min (initial_delay * 2 ^ attempt) max_delay := by
  constructor <;>
    simp [ExponentialBackoffStrategy.get_delay, ExponentialBackoffStrategy.base_delay,
      GHClient.calculate_delay]

/-- When every attempt outcome keeps the loop retrying, the loop performs
exactly one invocation per unit of fuel. -/
theorem execAttempts_all_retry_invocations (custom : List ErrorPatternSet)
    (det_timeout : Nat) (config : CommandConfig) (outcomes : Nat → AttemptOutcome)
    (cmd_list : List String) (cmd_string : String)
    (h : ∀ a, outcomeRetries custom det_timeout config cmd_string (outcomes a)) :
    ∀ fuel attempt,
      (execAttempts custom det_timeout config outcomes cmd_list cmd_string
        fuel attempt).invocations = fuel := by
  intro fuel
  induction fuel with
  | zero => intro attempt; simp [execAttempts]
  | succ n ih =>
    intro attempt
    have ha := h attempt
    cases hout : outcomes attempt with
    | completed rc stdout stderr =>
      rw [hout] at ha
      simp only [outcomeRetries] at ha
      obtain ⟨hsucc, hrec, hstrat⟩ := ha
      simp only [execAttempts, hout]
      have hc1 : (((rc == 0) &&
          (!config.check_return_code
            || !(detect_error_patterns custom det_timeout
                  (if config.combine_output then stdout ++ stderr else stdout) rc
                  cmd_string).is_error))
          || !(detect_error_patterns custom det_timeout
                (if config.combine_output then stdout ++ stderr else stdout) rc
                cmd_string).recoverable) = false := by
        rw [hsucc, hrec]
        rfl
      rw [hc1]
      have hc2 : (match config.retry_strategy with
          | some s => !s.should_retry
              (if config.combine_output then stdout ++ stderr else stdout) rc
          | none => false) = false := by
        cases hs : config.retry_strategy with
        | none => rfl
        | some s => simp [hstrat s hs]
      rw [hc2]
      simp only [Bool.false_eq_true, if_false]
      split
      · rename_i hn
        subst hn
        rfl
      · dsimp only
        rw [ih (attempt + 1)]
    | timeoutExpired =>
      simp only [execAttempts, hout]
      split
      · rename_i hn; subst hn; rfl
      · dsimp only; rw [ih (attempt + 1)]
    | fileNotFound =>
      rw [hout] at ha
      simp [outcomeRetries] at ha
    | otherException msg =>
      simp only [execAttempts, hout]
      split
      · rename_i hn; subst hn; rfl
      · dsimp only; rw [ih (attempt + 1)]

/-- C3: `execute_command` always yields a fully-formed result (every returned
`CommandResult` carries error information, the zero-iteration fallback
included); and with `retries = N` and every attempt outcome a retriable
failure, exactly `N + 1` invocations occur. -/
theorem c3_total_result_and_retry_count :
    (∀ (custom : List ErrorPatternSet) (det_timeout : Nat) (config : CommandConfig)
        (outcomes : Nat → AttemptOutcome) (command : List String),
      (execute_command custom det_timeout config outcomes command).result.error_info.isSome
        = true) ∧
    (∀ (custom : List ErrorPatternSet) (det_timeout : Nat) (config : CommandConfig)
        (outcomes : Nat → AttemptOutcome) (command : List String) (N : Nat),
      config.retries = (N : Int) →
      (∀ a, outcomeRetries custom det_timeout config
          (String.intercalate " " command) (outcomes a)) →
      (execute_command custom det_timeout config outcomes command).invocations = N + 1) := by
  constructor
  · intro custom det_timeout config outcomes command
    exact execAttempts_error_info_isSome custom det_timeout config outcomes command
      (String.intercalate " " command) (config.retries + 1).toNat 0
  · intro custom det_timeout config outcomes command N hN h
    have : (config.retries + 1).toNat = N + 1 := by rw [hN]; omega
    rw [execute_command, this]
    exact execAttempts_all_retry_invocations custom det_timeout config outcomes command
      (String.intercalate " " command) h (N + 1) 0

/-- C3 witness: a persistently failing generic-error process under
`retries = 2` is invoked exactly 3 times. -/
theorem c3_total_result_and_retry_count_witness :
    (CommandConfig.retries { retries := 2 } = ((2 : Nat) : Int)) ∧
    (execute_command [] 30 { retries := 2 } (fun _ => .completed 1 "" "err") ["x"]).invocations
      = 2 + 1 :=
  ⟨by decide,
   c3_total_result_and_retry_count.2 [] 30 { retries := 2 }
     (fun _ => .completed 1 "" "err") ["x"] 2 (by decide)
     (fun a => ⟨by decide, by decide, fun s hs => by cases hs⟩)⟩

/-- C6 (counterexample): in the synthesized-timeout path the retry strategy is
never consulted.  With a strategy whose `should_retry` rejects the timeout
output (patterns `["rate limit"]`) and `retries = 1`, the attempt-0 timeout
outcome is followed by a second invocation, refuting the claim for the
synthesized timeout outcome. -/
theorem c6_counterexample :
    ((ExponentialBackoffStrategy.toStrategy { retry_patterns := ["rate limit"] }
        (fun _ => 0)).should_retry
      (execute_command [] 30
        { retries := 0
        , retry_strategy := some (ExponentialBackoffStrategy.toStrategy
            { retry_patterns := ["rate limit"] } (fun _ => 0)) }
        (fun _ => .timeoutExpired) ["deploy"]).result.output
      (execute_command [] 30
        { retries := 0
        , retry_strategy := some (ExponentialBackoffStrategy.toStrategy
            { retry_patterns := ["rate limit"] } (fun _ => 0)) }
        (fun _ => .timeoutExpired) ["deploy"]).result.return_code = false) ∧
    (execute_command [] 30
        { retries := 1
        , retry_strategy := some (ExponentialBackoffStrategy.toStrategy
            { retry_patterns := ["rate limit"] } (fun _ => 0)) }
        (fun _ => .timeoutExpired) ["deploy"]).invocations = 2 :=
  ⟨by decide, by decide⟩

/-- C6 (amended): from any loop position with any remaining budget, an attempt
whose process completes and whose outcome is a success, is classified
non-recoverable, or is declined by the configured strategy, is the last
attempt (exactly one further invocation, the attempt itself); likewise the
synthesized command-not-found outcome.  The synthesized timeout and
generic-exception outcomes instead retry whenever budget remains, without
consulting the strategy (see the counterexample). -/
theorem c6_stop_conditions_amended (custom : List ErrorPatternSet)
    (det_timeout : Nat) (config : CommandConfig) (outcomes : Nat → AttemptOutcome)
    (cmd_list : List String) (cmd_string : String) (fuel attempt : Nat) :
    (∀ rc stdout stderr, outcomes attempt = .completed rc stdout stderr →
      completedStops custom det_timeout config cmd_string rc stdout stderr →
      (execAttempts custom det_timeout config outcomes cmd_list cmd_string
        (fuel + 1) attempt).invocations = 1) ∧
    (outcomes attempt = .fileNotFound →
      (execAttempts custom det_timeout config outcomes cmd_list cmd_string
        (fuel + 1) attempt).invocations = 1) := by
  constructor
  · intro rc stdout stderr hout hstop
    simp only [completedStops] at hstop
    simp only [execAttempts, hout]
    set output := if config.combine_output = true then stdout ++ stderr else stdout
      with houtdef
    set ei := detect_error_patterns custom det_timeout output rc cmd_string with heidef
    split
    · rfl
    · rename_i hcond
      split
      · rfl
      · rename_i hcond2
        exfalso
        rcases hstop with hs | hr | ⟨s, hcfg, hsr⟩
        · rw [hs] at hcond
          simp at hcond
        · rw [hr] at hcond
          simp at hcond
        · rw [hcfg] at hcond2
          simp [hsr] at hcond2
  · intro hout
    simp only [execAttempts, hout]

/-- C6 witness: the amended stop property at a non-recoverable
permission-error outcome with ample remaining budget. -/
theorem c6_stop_conditions_amended_witness :
    (execAttempts [] 30 {} (fun _ => .completed 1 "forbidden" "") ["kubectl"] "kubectl"
      (5 + 1) 0).invocations = 1 :=
  (c6_stop_conditions_amended [] 30 {} (fun _ => .completed 1 "forbidden" "") ["kubectl"]
      "kubectl" 5 0).1 1 "forbidden" "" rfl (Or.inr (Or.inl (by decide)))

/-- Searching an appended list of pattern sets tries the first list before
the second. -/
theorem findMatchingSet_append (output : String) :
    ∀ xs ys : List ErrorPatternSet,
      findMatchingSet output (xs ++ ys)
        = match findMatchingSet output xs with
          | some ps => some ps
          | none => findMatchingSet output ys := by
  intro xs
  induction xs with
  | nil => intro ys; rfl
  | cons x rest ih =>
    intro ys
    simp only [List.cons_append, findMatchingSet]
    split
    · rfl
    · exact ih ys

/-- C10: whenever the output matches any registered (custom) or built-in
pattern set, `detect_error_patterns` returns that first matching set's error —
`is_error = true` — for every return code including `0`; consequently, with
`check_return_code` set and `retries = 0`, a zero-exit command whose output
matches a pattern is reported with `success = false` by `execute_command`. -/
theorem c10_pattern_overrides_zero_exit :
    (∀ (custom : List ErrorPatternSet) (det_timeout : Nat) (output : String)
        (return_code : Int) (command : String) (ps : ErrorPatternSet),
      findMatchingSet output (custom ++ default_patterns) = some ps →
      detect_error_patterns custom det_timeout output return_code command
          = errorInfoOfSet ps ∧
        (detect_error_patterns custom det_timeout output return_code command).is_error
          = true) ∧
    (∀ (custom : List ErrorPatternSet) (det_timeout : Nat) (config : CommandConfig)
        (outcomes : Nat → AttemptOutcome) (command : List String)
        (stdout stderr : String) (ps : ErrorPatternSet),
      config.check_return_code = true → config.retries = 0 →
      outcomes 0 = .completed 0 stdout stderr →
      findMatchingSet (if config.combine_output = true then stdout ++ stderr else stdout)
          (custom ++ default_patterns) = some ps →
      (execute_command custom det_timeout config outcomes command).result.success
        = false) := by
  have key : ∀ (custom : List ErrorPatternSet) (det_timeout : Nat) (output : String)
      (return_code : Int) (command : String) (ps : ErrorPatternSet),
      findMatchingSet output (custom ++ default_patterns) = some ps →
      detect_error_patterns custom det_timeout output return_code command
        = errorInfoOfSet ps := by
    intro custom det_timeout output return_code command ps hfind
    rw [findMatchingSet_append] at hfind
    rw [detect_error_patterns]
    cases hc : findMatchingSet output custom with
    | some p =>
      rw [hc] at hfind
      simp only at hfind
      rw [hfind]
    | none =>
      rw [hc] at hfind
      simp only at hfind
      rw [hfind]
  constructor
  · intro custom det_timeout output return_code command ps hfind
    refine ⟨key custom det_timeout output return_code command ps hfind, ?_⟩
    rw [key custom det_timeout output return_code command ps hfind]
    rfl
  · intro custom det_timeout config outcomes command stdout stderr ps hcrc hret hout hfind
    have htot : (config.retries + 1).toNat = 0 + 1 := by rw [hret]; rfl
    rw [execute_command, htot]
    simp only [execAttempts, hout]
    have hei := key custom det_timeout
      (if config.combine_output = true then stdout ++ stderr else stdout) 0
      (String.intercalate " " command) ps hfind
    rw [hei]
    have hsucc : (((0 : Int) == 0)
        && (!config.check_return_code || !(errorInfoOfSet ps).is_error)) = false := by
      rw [hcrc]
      rfl
    rw [hsucc]
    repeat' split
    all_goals rfl

/-- C10 witness: output `"connection refused"` with return code 0 is
classified as the network pattern set's error, and a zero-exit command with
that output is reported unsuccessful under the default config. -/
theorem c10_pattern_overrides_zero_exit_witness :
    (detect_error_patterns [] 30 "connection refused" 0 "curl"
        = errorInfoOfSet networkPatternSet ∧
      (detect_error_patterns [] 30 "connection refused" 0 "curl").is_error = true) ∧
    (execute_command [] 30 {} (fun _ => .completed 0 "connection refused" "")
        ["curl"]).result.success = false :=
  ⟨c10_pattern_overrides_zero_exit.1 [] 30 "connection refused" 0 "curl"
      networkPatternSet (by decide),
   c10_pattern_overrides_zero_exit.2 [] 30 {} (fun _ => .completed 0 "connection refused" "")
      ["curl"] "connection refused" "" networkPatternSet rfl rfl rfl (by decide)⟩

/-- The scanning loop marks `has_checks` on every element. -/
theorem scanCheck_has_checks (st : CIScanState) (c : CheckRun) :
    (scanCheck st c).has_checks = true := by
  cases hid : c.id with
  | none =>
    simp only [scanCheck, hid]
    repeat' split
    all_goals rfl
  | some i =>
    simp only [scanCheck, hid]
    repeat' split
    all_goals rfl

/-- Effect of one scanned check-run on `has_pending`. -/
theorem scanCheck_has_pending (st : CIScanState) (c : CheckRun) :
    (scanCheck st c).has_pending = (st.has_pending || isPendingCheck c) := by
  cases hid : c.id with
  | none =>
    simp only [scanCheck, hid, isPendingCheck]
    repeat' split
    all_goals simp_all [bne_iff_ne]
  | some i =>
    simp only [scanCheck, hid, isPendingCheck]
    repeat' split
    all_goals simp_all [bne_iff_ne]

/-- Effect of one scanned check-run on `failed_checks`. -/
theorem scanCheck_failed_checks (st : CIScanState) (c : CheckRun) :
    (scanCheck st c).failed_checks
      = st.failed_checks ++ (if isFailedCheck c then [checkNameOf c] else []) := by
  cases hid : c.id with
  | none =>
    simp only [scanCheck, hid, isFailedCheck, checkNameOf]
    repeat' split
    all_goals simp_all
  | some i =>
    simp only [scanCheck, hid, isFailedCheck, checkNameOf]
    repeat' split
    all_goals simp_all

/-- Effect of one scanned check-run on `failed_check_urls`. -/
theorem scanCheck_failed_check_urls (st : CIScanState) (c : CheckRun) :
    (scanCheck st c).failed_check_urls
      = st.failed_check_urls
        ++ (if isFailedCheck c then [c.html_url.getD ""] else []) := by
  cases hid : c.id with
  | none =>
    simp only [scanCheck, hid, isFailedCheck]
    repeat' split
    all_goals simp_all
  | some i =>
    simp only [scanCheck, hid, isFailedCheck]
    repeat' split
    all_goals simp_all

/-- After folding the scanning loop, `has_checks` records non-emptiness. -/
theorem foldl_scanCheck_has_checks :
    ∀ (cs : List CheckRun) (st : CIScanState),
      (cs.foldl scanCheck st).has_checks = (st.has_checks || !cs.isEmpty) := by
  intro cs
  induction cs with
  | nil => intro st; simp
  | cons c rest ih =>
    intro st
    simp only [List.foldl_cons, ih, scanCheck_has_checks, List.isEmpty_cons]
    simp

/-- After folding the scanning loop, `has_pending` holds exactly when some
check-run is pending. -/
theorem foldl_scanCheck_has_pending :
    ∀ (cs : List CheckRun) (st : CIScanState),
      (cs.foldl scanCheck st).has_pending = (st.has_pending || cs.any isPendingCheck) := by
  intro cs
  induction cs with
  | nil => intro st; simp
  | cons c rest ih =>
    intro st
    simp only [List.foldl_cons, ih, scanCheck_has_pending, List.any_cons]
    simp [Bool.or_assoc]

/-- After folding the scanning loop, `failed_checks` collects the names of
the completed check-runs with failing conclusions, in order. -/
theorem foldl_scanCheck_failed_checks :
    ∀ (cs : List CheckRun) (st : CIScanState),
      (cs.foldl scanCheck st).failed_checks
        = st.failed_checks ++ (cs.filter isFailedCheck).map checkNameOf := by
  intro cs
  induction cs with
  | nil => intro st; simp
  | cons c rest ih =>
    intro st
    simp only [List.foldl_cons, ih, scanCheck_failed_checks, List.filter_cons]
    split <;> simp

/-- The step-name fallback never touches the status-relevant fields. -/
theorem stepScan_preserves (sl : Int → Bool × Bool × String × String)
    (st : CIScanState) (i : Int) :
    (stepScan sl st i).has_pending = st.has_pending ∧
    (stepScan sl st i).failed_checks = st.failed_checks ∧
    (stepScan sl st i).failed_check_urls = st.failed_check_urls ∧
    (stepScan sl st i).check_names = st.check_names ∧
    (stepScan sl st i).has_checks = st.has_checks := by
  simp only [stepScan]
  repeat' split <;> simp_all

/-- Folding the step-name fallback never touches the status-relevant
fields. -/
theorem foldl_stepScan_preserves (sl : Int → Bool × Bool × String × String) :
    ∀ (ids : List Int) (st : CIScanState),
      ((ids.foldl (stepScan sl) st).has_pending = st.has_pending ∧
       (ids.foldl (stepScan sl) st).failed_checks = st.failed_checks ∧
       (ids.foldl (stepScan sl) st).failed_check_urls = st.failed_check_urls ∧
       (ids.foldl (stepScan sl) st).check_names = st.check_names ∧
       (ids.foldl (stepScan sl) st).has_checks = st.has_checks) := by
  intro ids
  induction ids with
  | nil => intro st; exact ⟨rfl, rfl, rfl, rfl, rfl⟩
  | cons i rest ih =>
    intro st
    have h1 := stepScan_preserves sl st i
    have h2 := ih (stepScan sl st i)
    simp only [List.foldl_cons]
    exact ⟨h2.1.trans h1.1, h2.2.1.trans h1.2.1, h2.2.2.1.trans h1.2.2.1,
      h2.2.2.2.1.trans h1.2.2.2.1, h2.2.2.2.2.trans h1.2.2.2.2⟩

/-- `applyStepLookups` never touches the status-relevant fields. -/
theorem applyStepLookups_preserves (sl : Int → Bool × Bool × String × String)
    (st : CIScanState) :
    (applyStepLookups sl st).has_pending = st.has_pending ∧
    (applyStepLookups sl st).failed_checks = st.failed_checks ∧
    (applyStepLookups sl st).failed_check_urls = st.failed_check_urls ∧
    (applyStepLookups sl st).check_names = st.check_names ∧
    (applyStepLookups sl st).has_checks = st.has_checks := by
  simp only [applyStepLookups]
  split
  · exact foldl_stepScan_preserves sl (st.job_ids.take 5) st
  · exact ⟨rfl, rfl, rfl, rfl, rfl⟩

/-- C2: status priority of the resolver — any pending check-run forces status
`pending` (even when completed failing siblings were collected); with no
pending check-run, any failing conclusion forces `failure`; otherwise
`success`. -/
theorem c2_status_priority (stepLookup : Int → Bool × Bool × String × String)
    (checks : List CheckRun) (hne : checks ≠ []) :
    (checks.any isPendingCheck = true →
      (check_post_merge_ci_status stepLookup checks).status = "pending") ∧
    (checks.any isPendingCheck = false → checks.any isFailedCheck = true →
      (check_post_merge_ci_status stepLookup checks).status = "failure") ∧
    (checks.any isPendingCheck = false → checks.any isFailedCheck = false →
      (check_post_merge_ci_status stepLookup checks).status = "success") := by
  have hchecks : (checks.foldl scanCheck {}).has_checks = true := by
    rw [foldl_scanCheck_has_checks]
    simp [hne]
  have hpend1 : (applyStepLookups stepLookup (checks.foldl scanCheck {})).has_pending
      = checks.any isPendingCheck := by
    rw [(applyStepLookups_preserves stepLookup _).1, foldl_scanCheck_has_pending]
    simp
  have hfail1 : (applyStepLookups stepLookup (checks.foldl scanCheck {})).failed_checks
      = (checks.filter isFailedCheck).map checkNameOf := by
    rw [(applyStepLookups_preserves stepLookup _).2.1, foldl_scanCheck_failed_checks]
    simp
  refine ⟨?_, ?_, ?_⟩
  · intro hp
    simp [check_post_merge_ci_status, hchecks, hpend1, hp]
  · intro hp hf
    have hne2 : (checks.filter isFailedCheck).map checkNameOf ≠ [] := by
      simp only [ne_eq, List.map_eq_nil_iff, List.filter_eq_nil_iff]
      intro hall
      rw [List.any_eq_true] at hf
      obtain ⟨x, hx, hpx⟩ := hf
      exact hall x hx hpx
    simp [check_post_merge_ci_status, hchecks, hpend1, hp, hfail1, hne2]
  · intro hp hf
    have hnil : (checks.filter isFailedCheck).map checkNameOf = [] := by
      simp only [List.map_eq_nil_iff, List.filter_eq_nil_iff]
      intro x hx
      rw [List.any_eq_false] at hf
      exact hf x hx
    simp [check_post_merge_ci_status, hchecks, hpend1, hp, hfail1, hnil]

/-- C2 witness: an in-progress check-run next to a completed failing sibling
resolves to `pending`. -/
theorem c2_status_priority_witness :
    ([ ({ name := some "lint", status := some "in_progress" } : CheckRun)
     , ({ name := some "unit", status := some "completed", conclusion := some "failure"
        , html_url := some "http://u" } : CheckRun) ].any isPendingCheck = true) ∧
    (check_post_merge_ci_status (fun _ => (false, false, "", ""))
      [ { name := some "lint", status := some "in_progress" }
      , { name := some "unit", status := some "completed", conclusion := some "failure"
        , html_url := some "http://u" } ]).status = "pending" :=
  ⟨by decide,
   (c2_status_priority (fun _ => (false, false, "", ""))
      [ { name := some "lint", status := some "in_progress" }
      , { name := some "unit", status := some "completed", conclusion := some "failure"
        , html_url := some "http://u" } ] (by decide)).1 (by decide)⟩

/-- C9: a `pending` resolution always carries empty `failed_checks` and
`failed_check_urls`, whatever completed failing siblings were scanned. -/
theorem c9_pending_no_failed_lists (stepLookup : Int → Bool × Bool × String × String)
    (checks : List CheckRun)
    (h : (check_post_merge_ci_status stepLookup checks).status = "pending") :
    (check_post_merge_ci_status stepLookup checks).failed_checks = [] ∧
    (check_post_merge_ci_status stepLookup checks).failed_check_urls = [] := by
  simp only [check_post_merge_ci_status] at h ⊢
  split at h
  · exact absurd h (by decide)
  · rename_i h1
    split at h
    · rename_i h2
      rw [if_neg h1, if_pos h2]
      exact ⟨rfl, rfl⟩
    · rename_i h2
      split at h
      · dsimp only at h
        exact absurd h (by decide)
      · dsimp only at h
        exact absurd h (by decide)

/-- C9 witness: the pending result next to a collected failing sibling has
both failure lists empty. -/
theorem c9_pending_no_failed_lists_witness :
    (check_post_merge_ci_status (fun _ => (false, false, "", ""))
      [ { name := some "lint", status := some "queued" }
      , { name := some "unit", status := some "completed", conclusion := some "cancelled"
        , html_url := some "http://v" } ]).failed_checks = [] ∧
    (check_post_merge_ci_status (fun _ => (false, false, "", ""))
      [ { name := some "lint", status := some "queued" }
      , { name := some "unit", status := some "completed", conclusion := some "cancelled"
        , html_url := some "http://v" } ]).failed_check_urls = [] :=
  c9_pending_no_failed_lists (fun _ => (false, false, "", ""))
    [ { name := some "lint", status := some "queued" }
    , { name := some "unit", status := some "completed", conclusion := some "cancelled"
      , html_url := some "http://v" } ] (by decide)

/-- One rate-limited failing iteration of the gh retry loop: sleep the
calculated delay and recurse with one more invocation on the tally. -/
theorem ghRetryLoop_rate_limit_step (config : GHClientConfig) (u : Nat → ℚ)
    (label : String) (csr rse : Bool) (rleo : String)
    (results : Nat → Option ProcResult) (retries fuel attempt : Nat)
    (total_wait : ℚ) (r : ProcResult)
    (hres : results attempt = some r) (hrc : r.returncode ≠ 0)
    (hrl : pySubstr "rate limit" (pyLower (pyStrip r.stderr)) = true)
    (hlt : attempt < retries - 1) :
    ghRetryLoop config u label csr rse rleo results retries (fuel + 1) attempt total_wait
      = { success := (ghRetryLoop config u label csr rse rleo results retries fuel
            (attempt + 1) (total_wait + GHClient.calculate_delay config u attempt)).success
        , output := (ghRetryLoop config u label csr rse rleo results retries fuel
            (attempt + 1) (total_wait + GHClient.calculate_delay config u attempt)).output
        , invocations := (ghRetryLoop config u label csr rse rleo results retries fuel
            (attempt + 1) (total_wait + GHClient.calculate_delay config u attempt)).invocations
              + 1
        , sleeps := GHClient.calculate_delay config u attempt
            :: (ghRetryLoop config u label csr rse rleo results retries fuel
                (attempt + 1) (total_wait + GHClient.calculate_delay config u attempt)).sleeps } := by
  have e : (r.returncode == 0) = false := by simpa using hrc
  simp [ghRetryLoop, hres, e, hrl, hlt]

/-- A zero-exit iteration of the gh retry loop returns immediately with one
invocation and no sleep. -/
theorem ghRetryLoop_success_step (config : GHClientConfig) (u : Nat → ℚ)
    (label : String) (csr rse : Bool) (rleo : String)
    (results : Nat → Option ProcResult) (retries fuel attempt : Nat)
    (total_wait : ℚ) (r : ProcResult)
    (hres : results attempt = some r) (hrc : r.returncode = 0) :
    ghRetryLoop config u label csr rse rleo results retries (fuel + 1) attempt total_wait
      = { success := true, output := pyStrip r.stdout, invocations := 1, sleeps := [] } := by
  have e : (r.returncode == 0) = true := by simpa using hrc
  simp [ghRetryLoop, hres, e]

/-- C7: a run whose first two invocations fail with rate-limit text on stderr
and whose third succeeds performs exactly 3 underlying invocations and the
two calculated sleeps; and (for every jitter draw within the drawn bounds)
the second delay is at least the first.  The delay claim needs only the
default-configuration regime: `jitter ≤ 1/3` (default 0.1) and the second
pre-jitter delay below the cap (`2·initial_delay ≤ max_delay`; default
4 ≤ 300). -/
theorem c7_rate_limit_three_invocations (config : GHClientConfig) (u : Nat → ℚ)
    (results : Nat → Option ProcResult) (r0 r1 r2 : ProcResult)
    (h0 : results 0 = some r0) (h1 : results 1 = some r1) (h2 : results 2 = some r2)
    (hrc0 : r0.returncode ≠ 0) (hrc1 : r1.returncode ≠ 0) (hrc2 : r2.returncode = 0)
    (hrl0 : pySubstr "rate limit" (pyLower (pyStrip r0.stderr)) = true)
    (hrl1 : pySubstr "rate limit" (pyLower (pyStrip r1.stderr)) = true)
    (hmr : 3 ≤ config.max_retries)
    (hinit : 0 ≤ config.initial_delay)
    (hjit : config.jitter ≤ 1/3)
    (hcap : 2 * config.initial_delay ≤ config.max_delay)
    (hu0 : |u 0| ≤ min (config.initial_delay * 2 ^ 0) config.max_delay * config.jitter)
    (hu1 : |u 1| ≤ min (config.initial_delay * 2 ^ 1) config.max_delay * config.jitter) :
    (GHClient.run_command config u none results).success = true ∧
    (GHClient.run_command config u none results).invocations = 3 ∧
    (GHClient.run_command config u none results).sleeps
      = [GHClient.calculate_delay config u 0, GHClient.calculate_delay config u 1] ∧
    GHClient.calculate_delay config u 0 ≤ GHClient.calculate_delay config u 1 := by
  obtain ⟨k, hk⟩ : ∃ k, config.max_retries = k + 2 + 1 :=
    ⟨config.max_retries - 3, by omega⟩
  have htrace : GHClient.run_command config u none results
      = { success := true, output := pyStrip r2.stdout, invocations := 3
        , sleeps := [GHClient.calculate_delay config u 0, GHClient.calculate_delay config u 1] } := by
    rw [GHClient.run_command, GHClient.retry_with_backoff]
    simp only [Option.getD]
    rw [hk]
    rw [ghRetryLoop_rate_limit_step config u "" false false "" results (k + 2 + 1) (k + 2)
      0 0 r0 h0 hrc0 hrl0 (by omega)]
    rw [show k + 2 = k + 1 + 1 by omega]
    rw [ghRetryLoop_rate_limit_step config u "" false false "" results (k + 1 + 1 + 1) (k + 1)
      1 (0 + GHClient.calculate_delay config u 0) r1 h1 hrc1 hrl1 (by omega)]
    rw [ghRetryLoop_success_step config u "" false false "" results (k + 1 + 1 + 1) k
      2 (0 + GHClient.calculate_delay config u 0 + GHClient.calculate_delay config u 1)
      r2 h2 hrc2]
  have hb0 : min (config.initial_delay * 2 ^ 0) config.max_delay
      = config.initial_delay := by
    rw [pow_zero, mul_one, min_eq_left]
    linarith
  have hb1 : min (config.initial_delay * 2 ^ 1) config.max_delay
      = 2 * config.initial_delay := by
    rw [pow_one, mul_comm, min_eq_left hcap]
  have hmono : GHClient.calculate_delay config u 0 ≤ GHClient.calculate_delay config u 1 := by
    rw [hb0] at hu0
    rw [hb1] at hu1
    simp only [GHClient.calculate_delay, hb0, hb1]
    have key : config.initial_delay * config.jitter ≤ config.initial_delay * (1 / 3) :=
      mul_le_mul_of_nonneg_left hjit hinit
    by_cases hj : 0 < config.jitter
    · rw [if_pos hj, if_pos hj]
      have ha : u 0 ≤ config.initial_delay * config.jitter := (abs_le.mp hu0).2
      have hbb : -(2 * config.initial_delay * config.jitter) ≤ u 1 := by
        have := (abs_le.mp hu1).1
        linarith
      refine max_le_max le_rfl ?_
      linarith
    · rw [if_neg hj, if_neg hj]
      linarith
  rw [htrace]
  exact ⟨rfl, rfl, rfl, hmono⟩

/-- C7 witness: two rate-limited failures then a success under the default
configuration with zero jitter draws — 3 invocations, sleeps `[2, 4]`. -/
theorem c7_rate_limit_three_invocations_witness :
    (GHClient.run_command {} (fun _ => 0) none
      (fun a => if a < 2 then some ⟨1, "", "API rate limit exceeded"⟩
                else some ⟨0, "ok", ""⟩)).success = true ∧
    (GHClient.run_command {} (fun _ => 0) none
      (fun a => if a < 2 then some ⟨1, "", "API rate limit exceeded"⟩
                else some ⟨0, "ok", ""⟩)).invocations = 3 ∧
    (GHClient.run_command {} (fun _ => 0) none
      (fun a => if a < 2 then some ⟨1, "", "API rate limit exceeded"⟩
                else some ⟨0, "ok", ""⟩)).sleeps
      = [GHClient.calculate_delay {} (fun _ => 0) 0,
         GHClient.calculate_delay {} (fun _ => 0) 1] ∧
    GHClient.calculate_delay {} (fun _ => 0) 0
      ≤ GHClient.calculate_delay {} (fun _ => 0) 1 :=
  c7_rate_limit_three_invocations {} (fun _ => 0)
    (fun a => if a < 2 then some ⟨1, "", "API rate limit exceeded"⟩
              else some ⟨0, "ok", ""⟩)
    ⟨1, "", "API rate limit exceeded"⟩ ⟨1, "", "API rate limit exceeded"⟩ ⟨0, "ok", ""⟩
    rfl rfl rfl (by decide) (by decide) rfl (by decide) (by decide)
    (by norm_num) (by norm_num) (by norm_num) (by norm_num)
    (by norm_num [GHClientConfig.initial_delay, GHClientConfig.max_delay, GHClientConfig.jitter])
    (by norm_num [GHClientConfig.initial_delay, GHClientConfig.max_delay, GHClientConfig.jitter])
